import Mathlib

/-!
Verification of the intelligent-file-assistant core against its
specification.  Scores and wall-clock times are modelled as exact
rationals (`ℚ`); the persistent learning ledger is modelled as a list of
rows; the in-memory retry queue (a Python dict) is modelled as a function
from file paths to optional entries.
-/

/-! ## ConfidenceCombiner (src/agent/confidence.py, compute_confidence) -/

/-- The weighted blend of step 2 of the algorithm:
`combined = 0.4*token + 0.3*fuzzy + 0.3*content`. -/
def combined_step (token_score fuzzy_score content_score : ℚ) : ℚ :=
  0.4 * token_score + 0.3 * fuzzy_score + 0.3 * content_score

/-- Embedding of `compute_confidence` from src/agent/confidence.py:
memory short-circuit, weighted blend, obvious-match floor, softened
file-type factor, clamp to ≤ 1. -/
def compute_confidence (memory_score token_score fuzzy_score content_score
    file_type_weight : ℚ) : ℚ :=
  if memory_score > 0 then
    memory_score
  else
    let combined := combined_step token_score fuzzy_score content_score
    let combined :=
      if fuzzy_score ≥ 0.9 ∧ token_score ≥ 0.5 then max combined 0.75
      else combined
    let type_factor := 0.7 + 0.3 * file_type_weight
    min (combined * type_factor) 1

/-! ## DecisionPolicy

`decide_action` is imported by `main.py` and re-exported by
`python-prototype/agent/__init__.py` from `agent.decision`, but its
definition is not present in the sources; only its callers are. -/

/-- The three actions of the decision policy (source strings auto_move, ask, else ignore). -/
inductive PolicyAction where
  | autoMove
  | ask
  | ignoreFile
deriving DecidableEq, Repr

/-- Modelled from the spec: `decide_action` (module `agent.decision`) is
missing from the sources, only its callers in `main.py` exist.  Spec §4.5:
`confidence ≥ autoThreshold → AutoMove`;
`suggestThreshold ≤ confidence < autoThreshold → Ask`; else `Ignore`. -/
def decide_action (confidence autoThreshold suggestThreshold : ℚ) : PolicyAction :=
  if confidence ≥ autoThreshold then .autoMove
  else if confidence ≥ suggestThreshold then .ask
  else .ignoreFile

/-! ## LearningAdjuster (src/python-prototype/agent/learning_logic.py)

The learning ledger (SQLite table `learning`) is modelled as a list of
rows; `COUNT(*) ... GROUP BY action` becomes counting with `List.filter`. -/

/-- A row of the `learning` table: `{filename, suggested_folder, action}`
(the timestamp plays no role in the statistics). -/
structure LearningRec where
  filename : String
  suggested_folder : String
  action : String
deriving DecidableEq, Repr

/-- The aggregate returned by `get_learning_stats`. -/
structure LearningStats where
  accepts : ℕ
  rejects : ℕ
  ignores : ℕ
  total : ℕ
deriving DecidableEq, Repr

/-- Embedding of `get_learning_stats`: per-(filename, folder) action
counts; `total` counts every row for the pair regardless of action. -/
def get_learning_stats (ledger : List LearningRec) (filename folder : String) :
    LearningStats :=
  let rows := ledger.filter fun r =>
    r.filename == filename && r.suggested_folder == folder
  { accepts := (rows.filter fun r => r.action == "accept").length
    rejects := (rows.filter fun r => r.action == "choose").length
    ignores := (rows.filter fun r => r.action == "ignore").length
    total := rows.length }

/-- Embedding of `apply_learning_adjustment`: pass the base through when
the pair has no history, otherwise add the capped accept boost, subtract
the capped reject decay, and clamp to [0, 1]. -/
def apply_learning_adjustment (ledger : List LearningRec) (base_confidence : ℚ)
    (filename folder : String) : ℚ :=
  let stats := get_learning_stats ledger filename folder
  if stats.total = 0 then base_confidence
  else
    let adjustment : ℚ :=
      (if stats.accepts > 0 then min ((stats.accepts : ℚ) * 0.10) 0.50 else 0)
        - (if stats.rejects > 0 then min ((stats.rejects : ℚ) * 0.40) 0.50 else 0)
    max 0 (min 1 (base_confidence + adjustment))

/-! ## BatchCoordinator (src/python-prototype/agent/batch.py, BatchManager) -/

/-- State of `BatchManager`: grouping window, pending files in arrival
order, time of the most recent arrival (`None` when idle). -/
structure BatchState where
  window : ℚ
  files : List String
  t_last : Option ℚ
deriving DecidableEq, Repr

/-- Embedding of `BatchManager.add_file`: append and stamp `t_last`. -/
def add_file (b : BatchState) (file_path : String) (now : ℚ) : BatchState :=
  { b with files := b.files ++ [file_path], t_last := some now }

/-- Embedding of `BatchManager.is_ready`.  The source guard
`if not self.files or not self.t_last` is Python truthiness: it also
treats a stored timestamp of exactly 0.0 as absent. -/
def batch_is_ready (b : BatchState) (now : ℚ) : Bool :=
  match b.files, b.t_last with
  | [], _ => false
  | _, none => false
  | _ :: _, some t => if t = 0 then false else decide (now - t ≥ b.window)

/-- Embedding of `BatchManager.pop_batch`: return the accumulated list
and reset to idle. -/
def pop_batch (b : BatchState) : List String × BatchState :=
  (b.files, { b with files := [], t_last := none })

/-! ## RetryCoordinator (src/agent/retry_queue.py, LockedFileQueue, and
main.py process_locked_retries)

The Python dict `self.queue` is modelled as a function from file paths to
optional entries. -/

/-- The user decision stored with a queued file (`user_choice` dict in
main.py: action, chosen folder, optionally the original suggestion). -/
structure UserChoice where
  action : String
  folder : String
  suggested : Option String
deriving DecidableEq, Repr

/-- One value of the `LockedFileQueue.queue` dict. -/
structure RetryEntry where
  folder : String
  attempts : ℕ
  last_retry : ℚ
  user_choice : Option UserChoice
deriving DecidableEq, Repr

/-- The queue dict of `LockedFileQueue`. -/
abbrev RetryQueue := String → Option RetryEntry

/-- Embedding of `LockedFileQueue.add`: dict assignment, overwriting any
entry already stored for the path, with attempts reset to 0 and
`last_retry` stamped with the current time. -/
def queue_add (q : RetryQueue) (file_path folder : String) (now : ℚ)
    (user_choice : Option UserChoice) : RetryQueue :=
  fun p => if p = file_path then some ⟨folder, 0, now, user_choice⟩ else q p

/-- The exponential-backoff wait of `get_ready_files`:
`min(5 * 2**attempts, 60)`. -/
def wait_time (attempts : ℕ) : ℚ := min (5 * 2 ^ attempts) 60

/-- Readiness test applied by `get_ready_files` to each entry:
`now - last_retry >= wait_time`. -/
def entry_ready (now : ℚ) (e : RetryEntry) : Bool :=
  decide (now - e.last_retry ≥ wait_time e.attempts)

/-- Embedding of `LockedFileQueue.mark_retry`: increment the attempt
counter and stamp `last_retry`. -/
def mark_retry (q : RetryQueue) (file_path : String) (now : ℚ) : RetryQueue :=
  fun p =>
    if p = file_path then
      (q file_path).map fun e => { e with attempts := e.attempts + 1, last_retry := now }
    else q p

/-- Embedding of `LockedFileQueue.remove`. -/
def queue_remove (q : RetryQueue) (file_path : String) : RetryQueue :=
  fun p => if p = file_path then none else q p

/-- Embedding of `LockedFileQueue.should_give_up`:
`attempts >= max_retries` for a queued path, `False` otherwise. -/
def should_give_up (q : RetryQueue) (file_path : String) (max_retries : ℕ) : Bool :=
  match q file_path with
  | some e => decide (e.attempts ≥ max_retries)
  | none => false

/-- One pass of `main.py process_locked_retries` over a single queued
path whose move attempt fails with a lock again (and whose source file
still exists): if the entry is ready, `mark_retry` it, then drop it when
`should_give_up`; otherwise leave the queue untouched. -/
def process_locked_once (max_retries : ℕ) (q : RetryQueue) (file_path : String)
    (now : ℚ) : RetryQueue :=
  match q file_path with
  | none => q
  | some e =>
    if entry_ready now e then
      let q' := mark_retry q file_path now
      if should_give_up q' file_path max_retries then queue_remove q' file_path
      else q'
    else q

/-- Trace for C4: queue right after the initial locked failure at t = 0
enqueued the file (attempts = 0). -/
def retry_q0 : RetryQueue := queue_add (fun _ => none) "f" "d" 0 none

/-- Trace for C4 after the 1st failed retry at t = 5. -/
def retry_q1 : RetryQueue := process_locked_once 5 retry_q0 "f" 5

/-- Trace for C4 after the 2nd failed retry at t = 15. -/
def retry_q2 : RetryQueue := process_locked_once 5 retry_q1 "f" 15

/-- Trace for C4 after the 3rd failed retry at t = 35. -/
def retry_q3 : RetryQueue := process_locked_once 5 retry_q2 "f" 35

/-- Trace for C4 after the 4th failed retry at t = 75. -/
def retry_q4 : RetryQueue := process_locked_once 5 retry_q3 "f" 75

/-- Trace for C4 after the 5th failed retry at t = 135. -/
def retry_q5 : RetryQueue := process_locked_once 5 retry_q4 "f" 135

/-! ## Folder reputation and combined learning
(src/python-prototype/agent/learning_logic.py) -/

/-- The aggregate returned by `get_folder_learning_pattern`. -/
structure FolderPattern where
  total_suggestions : ℕ
  accept_rate : ℚ
  reject_rate : ℚ
  ignore_rate : ℚ
deriving DecidableEq, Repr

/-- Embedding of `get_folder_learning_pattern`: action rates over every
row ever recorded against the folder, zeros when it has no history. -/
def get_folder_learning_pattern (ledger : List LearningRec) (folder : String) :
    FolderPattern :=
  let rows := ledger.filter fun r => r.suggested_folder == folder
  let total := rows.length
  if total = 0 then ⟨0, 0, 0, 0⟩
  else
    ⟨total,
      ((rows.filter fun r => r.action == "accept").length : ℚ) / total,
      ((rows.filter fun r => r.action == "choose").length : ℚ) / total,
      ((rows.filter fun r => r.action == "ignore").length : ℚ) / total⟩

/-- Embedding of `apply_folder_reputation_boost`: below 5 samples the
confidence passes through, otherwise ±5% of the reputation, clamped. -/
def apply_folder_reputation_boost (ledger : List LearningRec) (confidence : ℚ)
    (folder : String) : ℚ :=
  let pattern := get_folder_learning_pattern ledger folder
  if pattern.total_suggestions < 5 then confidence
  else
    let reputation := pattern.accept_rate - pattern.reject_rate
    let adjustment := reputation * 0.05
    max 0 (min 1 (confidence + adjustment))

/-- Embedding of `get_confidence_with_learning`: pair-specific adjustment
first, folder reputation second. -/
def get_confidence_with_learning (ledger : List LearningRec) (base_confidence : ℚ)
    (filename folder : String) : ℚ :=
  apply_folder_reputation_boost ledger
    (apply_learning_adjustment ledger base_confidence filename folder) folder

/-! ## Matcher (src/agent/matcher.py, match)

External collaborators are abstracted exactly as the spec scopes them
out: the semantic classifier is an optional `(folder, confidence,
reasoning)` result, content extraction an optional snippet, and the two
scorer signals are function parameters.  The decision store is the list
of rows of the `decisions` table. -/

/-- The dict returned by `match`. -/
structure MatchResult where
  folder : Option String
  confidence : ℚ
  memory_score : ℚ
  token_score : ℚ
  fuzzy_score : ℚ
  content_score : ℚ
  file_type_weight : ℚ
  method : String
  reasoning : Option String
deriving DecidableEq, Repr

/-- `SELECT folder FROM decisions WHERE filename = ?` with `fetchone`:
first matching row wins. -/
def lookup_decision (decisions : List (String × String)) (filename : String) :
    Option String :=
  (decisions.find? fun r => r.1 == filename).map (·.2)

/-- Embedding of `file_type_weight` / FILE_TYPE_PRIORS keyed on the
lower-cased extension, default 0.8. -/
def file_type_weight_of (ext : String) : ℚ :=
  if ext == ".pdf" then 1
  else if ext == ".docx" then 0.9
  else if ext == ".pptx" then 0.9
  else if ext == ".ipynb" then 0.9
  else if ext == ".png" then 0.2
  else if ext == ".jpg" then 0.2
  else if ext == ".zip" then 0.4
  else 0.8

/-- Best candidate tracked by the fallback scan of `match`. -/
structure ScanBest where
  score : ℚ
  folder : Option String
  token : ℚ
  fuzzy : ℚ
  content : ℚ
deriving DecidableEq, Repr

/-- Embedding of the fallback candidate loop of `match`: per candidate
`(folder_path, folder_name)` compute the token, fuzzy and content
signals, combine as `max(token, fuzzy*0.7, content)`, weight by the
file-type prior, and keep the strictly best candidate (first seen wins
ties). -/
def scan_folders (tokenS fuzzyS : String → String → ℚ)
    (content_snippet : Option String) (filename : String) (ftw : ℚ)
    (candidates : List (String × String)) : ScanBest :=
  candidates.foldl
    (fun best cand =>
      let token_sc := tokenS filename cand.2
      let fuzzy_sc := fuzzyS filename cand.2
      let content_sc :=
        match content_snippet with
        | some content => max (tokenS content cand.2) (fuzzyS content cand.2)
        | none => 0
      let score := max (max token_sc (fuzzy_sc * 0.7)) content_sc
      let weighted := score * ftw
      if weighted > best.score then
        ⟨weighted, some cand.1, token_sc, fuzzy_sc, content_sc⟩
      else best)
    ⟨0, none, 0, 0, 0⟩

/-- The `method = "string"` fallback branch of `match`. -/
def match_string_branch (ledger : List LearningRec)
    (tokenS fuzzyS : String → String → ℚ) (content_snippet : Option String)
    (candidates : List (String × String)) (filename ext : String) : MatchResult :=
  let ftw := file_type_weight_of ext
  let best := scan_folders tokenS fuzzyS content_snippet filename ftw candidates
  let base_confidence := compute_confidence 0 best.token best.fuzzy best.content ftw
  let final_confidence :=
    match best.folder with
    | some f => get_confidence_with_learning ledger base_confidence filename f
    | none => base_confidence
  { folder := if best.score > 0 then best.folder else none
    confidence := final_confidence
    memory_score := 0, token_score := best.token, fuzzy_score := best.fuzzy
    content_score := best.content, file_type_weight := ftw
    method := "string", reasoning := none }

/-- Embedding of `match`: memory lookup first, then the external
classifier (used only when it reports confidence > 0), then the string
fallback. -/
def match_file (decisions : List (String × String))
    (classifier : Option (String × ℚ × String)) (ledger : List LearningRec)
    (tokenS fuzzyS : String → String → ℚ) (content_snippet : Option String)
    (candidates : List (String × String)) (filename ext : String) : MatchResult :=
  match lookup_decision decisions filename with
  | some folder =>
    { folder := some folder, confidence := 1, memory_score := 1
      token_score := 0, fuzzy_score := 0, content_score := 0
      file_type_weight := 1, method := "memory", reasoning := none }
  | none =>
    match classifier with
    | some (llm_folder, llm_confidence, reasoning) =>
      if llm_confidence > 0 then
        { folder := some llm_folder
          confidence := get_confidence_with_learning ledger llm_confidence
            filename llm_folder
          memory_score := 0, token_score := 0, fuzzy_score := 0
          content_score := llm_confidence, file_type_weight := 1
          method := "llm", reasoning := some reasoning }
      else
        match_string_branch ledger tokenS fuzzyS content_snippet candidates
          filename ext
    | none =>
      match_string_branch ledger tokenS fuzzyS content_snippet candidates
        filename ext

/-! ## Mover (src/actions/mover.py)

The filesystem is a finite map from paths to file contents; a path is
split `dir`/`stem`/`suffix` mirroring `Path.parent`, `Path.stem`,
`Path.suffix`.  Content-hash equality (utils/hash.py computes SHA-256 of
the bytes) is modelled as equality of contents. -/

/-- A filesystem path as the mover sees it. -/
structure MPath where
  dir : String
  stem : String
  suffix : String
deriving DecidableEq, Repr

/-- The filesystem: path → optional content. -/
abbrev MFS := MPath → Option String

/-- Embedding of `get_unique_filename`: starting from counter 1, while
the path exists rename it to `{stem}_{counter}{suffix}` (the stem of the
current candidate, so collisions compound: `report_1`, `report_1_2`, …).
The unbounded `while` is given explicit fuel; the source loop terminates
on a finite filesystem. -/
def get_unique_filename (fs : MFS) : MPath → ℕ → ℕ → MPath
  | p, _, 0 => p
  | p, counter, fuel + 1 =>
    match fs p with
    | none => p
    | some _ =>
      get_unique_filename fs
        ⟨p.dir, p.stem ++ "_" ++ toString counter, p.suffix⟩ (counter + 1) fuel

/-- Embedding of `move_file` from src/actions/mover.py (called with
`store=None` everywhere in main.py, so no action is recorded): fail when
the source is missing; on a name collision at the target, rename via
`get_unique_filename` — with no look at the contents — then move and
report plain success. -/
def move_file (fs : MFS) (source_path target_path : MPath) (fuel : ℕ) :
    Bool × MFS :=
  match fs source_path with
  | none => (false, fs)
  | some content =>
    let target :=
      match fs target_path with
      | some _ => get_unique_filename fs target_path 1 fuel
      | none => target_path
    (true,
      fun p => if p = target then some content
        else if p = source_path then none else fs p)

/-! ## Move/undo round trip (src/actions/undo.py undo_move, with the
store writes of a successful move modelled from the spec)

`main.py handle_single_file` performs `move_file`, `save_decision`,
`save_learning(…, "accept")`; the module-level store functions
(`storage.local_store.save_decision` etc., and the undo-history append)
are imported by main.py and undo.py but missing from the sources, so the
recording step is modelled from spec §3/§6.  A path here is
`dir`/`base` mirroring `os.path.dirname`/`os.path.basename`. -/

/-- A path as the undo logic sees it. -/
structure FPath where
  dir : String
  base : String
deriving DecidableEq, Repr

/-- The filesystem seen by move/undo: path → optional content. -/
abbrev FileSys := FPath → Option String

/-- A row of the `undo_history` table. -/
structure UndoRow where
  id : ℕ
  filename : String
  src : FPath
  dst : FPath
deriving DecidableEq, Repr

/-- The persistent state touched by moves and undo: filesystem,
`decisions` rows, `undo_history` rows in id order, `learning` rows, and
the next autoincrement id. -/
structure AppState where
  fs : FileSys
  decisions : List (String × String)
  undo_history : List UndoRow
  learning : List LearningRec
  next_id : ℕ

/-- `shutil.move(src, dst)` after the caller checked dst is free. -/
def fs_move (fs : FileSys) (src dst : FPath) : FileSys :=
  fun p => if p = dst then fs src else if p = src then none else fs p

/-- Modelled from the spec: `putDecision(filename, folder)` of §6 keeping
one row per filename (the Decision data model of §3); the implementation
(`storage.local_store.save_decision`) is missing from the sources. -/
def put_decision (decisions : List (String × String)) (filename folder : String) :
    List (String × String) :=
  (decisions.filter fun r => !(r.1 == filename)) ++ [(filename, folder)]

/-- Modelled from the spec: the undo-history bound of §3 — a ring of size
`MAX_UNDO_HISTORY` (settings default 10), oldest evicted first. -/
def trim_undo (l : List UndoRow) : List UndoRow :=
  l.drop (l.length - 10)

/-- Modelled from the spec: the persistence of a successful move of the
file at `src` into folder `folder` (§2 data flow, §3, §6) as performed by
`main.py handle_single_file`: move the bytes, `putDecision`, append the
undo-history entry, append an `accept` learning row.  The store functions
it calls are missing from the sources. -/
def recorded_move (s : AppState) (src : FPath) (folder : String) : AppState :=
  let filename := src.base
  let dst : FPath := ⟨folder, filename⟩
  { fs := fs_move s.fs src dst
    decisions := put_decision s.decisions filename folder
    undo_history := trim_undo (s.undo_history ++ [⟨s.next_id, filename, src, dst⟩])
    learning := s.learning ++ [⟨filename, folder, "accept"⟩]
    next_id := s.next_id + 1 }

/-- Embedding of `undo_move(None)` from src/actions/undo.py: take the
most recent undo-history row; fail if the file is no longer at `dst` or a
file already sits at `src`; otherwise move `dst` back to `src`, delete
that undo row, delete the `decisions` rows for the filename, and append a
`choose` learning row against `dirname(dst)`. -/
def undo_move (s : AppState) : Option AppState :=
  match s.undo_history.getLast? with
  | none => none
  | some row =>
    if s.fs row.dst = none then none
    else if s.fs row.src ≠ none then none
    else some
      { fs := fs_move s.fs row.dst row.src
        decisions := s.decisions.filter fun r => !(r.1 == row.filename)
        undo_history := s.undo_history.filter fun r => !(r.id == row.id)
        learning := s.learning ++ [⟨row.filename, row.dst.dir, "choose"⟩]
        next_id := s.next_id }

/-! ## Theorems -/

/-- Claim C1: whenever the memory score is positive, `compute_confidence`
returns exactly the memory score, ignoring the token, fuzzy, content and
file-type-weight inputs. -/
theorem compute_confidence_memory_wins
    (m t f c w t' f' c' w' : ℚ) (hm : m > 0) :
    compute_confidence m t f c w = m ∧
    compute_confidence m t f c w = compute_confidence m t' f' c' w' := by
  unfold compute_confidence
  rw [if_pos hm, if_pos hm]
  exact ⟨rfl, rfl⟩

/-- Witness for C1 at memory = 0.7 with two different settings of the
other inputs. -/
theorem compute_confidence_memory_wins_witness :
    compute_confidence 0.7 0 0 0 0 = 0.7 ∧
    compute_confidence 0.7 0 0 0 0 = compute_confidence 0.7 1 1 1 1 :=
  compute_confidence_memory_wins 0.7 0 0 0 0 1 1 1 1 (by norm_num)

/-- Claim C3: the decision policy maps confidence to AutoMove / Ask /
Ignore by the two thresholds (autoThreshold > suggestThreshold), and at
the default thresholds 0.85 / 0.4 the three boundary inputs resolve as
specified. -/
theorem decide_action_spec :
    (∀ c a s : ℚ, s < a →
      (decide_action c a s = .autoMove ↔ c ≥ a) ∧
      (decide_action c a s = .ask ↔ s ≤ c ∧ c < a) ∧
      (decide_action c a s = .ignoreFile ↔ c < s)) ∧
    decide_action 0.85 0.85 0.4 = .autoMove ∧
    decide_action 0.4 0.85 0.4 = .ask ∧
    decide_action 0.39 0.85 0.4 = .ignoreFile := by
  refine ⟨?_, by norm_num [decide_action], by norm_num [decide_action],
    by norm_num [decide_action]⟩
  intro c a s hsa
  unfold decide_action
  split_ifs with h1 h2
  · exact ⟨⟨fun _ => h1, fun _ => rfl⟩,
      ⟨fun h => h.elim,
       fun h => absurd h.2 (not_lt.mpr h1)⟩,
      ⟨fun h => h.elim,
       fun h => absurd (h.trans hsa) (not_lt.mpr h1)⟩⟩
  · exact ⟨⟨fun h => h.elim, fun h => absurd h h1⟩,
      ⟨fun _ => ⟨h2, not_le.mp h1⟩, fun _ => rfl⟩,
      ⟨fun h => h.elim,
       fun h => absurd h2 (not_le.mpr h)⟩⟩
  · exact ⟨⟨fun h => h.elim, fun h => absurd h h1⟩,
      ⟨fun h => h.elim, fun h => absurd h.1 h2⟩,
      ⟨fun _ => not_le.mp h2, fun _ => rfl⟩⟩

/-- Witness for C3: instantiate the universal part at confidence 0.9 with
the default thresholds. -/
theorem decide_action_spec_witness :
    decide_action 0.9 0.85 0.4 = .autoMove :=
  ((decide_action_spec.1 0.9 0.85 0.4 (by norm_num)).1).mpr (by norm_num)

/-- Claim C2: with accepts/rejects counted from the ledger for the pair,
the adjusted confidence is `clamp(base + min(accepts*0.10, 0.50) −
min(rejects*0.40, 0.50), 0, 1)`; no history passes the base through;
appending an `ignore` row never changes the result (for a base already in
[0,1]); five accepts and no rejects give an adjustment of exactly +0.50. -/
theorem learning_adjustment_spec (ledger : List LearningRec) (base : ℚ)
    (filename folder : String) (hb0 : 0 ≤ base) (hb1 : base ≤ 1) :
    ((get_learning_stats ledger filename folder).total ≠ 0 →
      apply_learning_adjustment ledger base filename folder =
        max 0 (min 1 (base +
          (min (((get_learning_stats ledger filename folder).accepts : ℚ) * 0.10) 0.50
            - min (((get_learning_stats ledger filename folder).rejects : ℚ) * 0.40) 0.50)))) ∧
    ((get_learning_stats ledger filename folder).total = 0 →
      apply_learning_adjustment ledger base filename folder = base) ∧
    (apply_learning_adjustment (ledger ++ [⟨filename, folder, "ignore"⟩])
        base filename folder =
      apply_learning_adjustment ledger base filename folder) ∧
    ((get_learning_stats ledger filename folder).accepts = 5 →
      (get_learning_stats ledger filename folder).rejects = 0 →
      apply_learning_adjustment ledger base filename folder =
        max 0 (min 1 (base + 0.50))) := by
  set s := get_learning_stats ledger filename folder with hs
  have key : s.total ≠ 0 →
      apply_learning_adjustment ledger base filename folder =
        max 0 (min 1 (base + (min ((s.accepts : ℚ) * 0.10) 0.50
          - min ((s.rejects : ℚ) * 0.40) 0.50))) := by
    intro htot
    unfold apply_learning_adjustment
    rw [← hs, if_neg htot]
    have hacc : (if s.accepts > 0 then min ((s.accepts : ℚ) * 0.10) 0.50 else 0)
        = min ((s.accepts : ℚ) * 0.10) 0.50 := by
      split_ifs with h
      · rfl
      · have h0 : s.accepts = 0 := Nat.eq_zero_of_not_pos h
        rw [h0]; norm_num
    have hrej : (if s.rejects > 0 then min ((s.rejects : ℚ) * 0.40) 0.50 else 0)
        = min ((s.rejects : ℚ) * 0.40) 0.50 := by
      split_ifs with h
      · rfl
      · have h0 : s.rejects = 0 := Nat.eq_zero_of_not_pos h
        rw [h0]; norm_num
    rw [hacc, hrej]
  have base_case : s.total = 0 →
      apply_learning_adjustment ledger base filename folder = base := by
    intro htot
    unfold apply_learning_adjustment
    rw [← hs, if_pos htot]
  refine ⟨key, base_case, ?_, ?_⟩
  · -- appending an ignore row for the pair
    have hrows : (ledger ++ [(⟨filename, folder, "ignore"⟩ : LearningRec)]).filter
        (fun r => r.filename == filename && r.suggested_folder == folder) =
        (ledger.filter fun r =>
          r.filename == filename && r.suggested_folder == folder)
          ++ [⟨filename, folder, "ignore"⟩] := by
      rw [List.filter_append]
      simp
    have hstats : get_learning_stats (ledger ++ [⟨filename, folder, "ignore"⟩])
        filename folder =
        { accepts := s.accepts, rejects := s.rejects,
          ignores := s.ignores + 1, total := s.total + 1 } := by
      unfold get_learning_stats
      rw [hrows]
      simp only [List.filter_append, List.length_append]
      rw [hs]
      unfold get_learning_stats
      simp
    rcases Nat.eq_zero_or_pos s.total with h0 | hpos
    · -- no prior history: both sides equal base
      have haz : s.accepts = 0 := by
        have := List.length_filter_le
          (fun r => r.action == "accept")
          (ledger.filter fun r =>
            r.filename == filename && r.suggested_folder == folder)
        have hts : s.total = (ledger.filter fun r =>
            r.filename == filename && r.suggested_folder == folder).length := rfl
        have has : s.accepts = ((ledger.filter fun r =>
            r.filename == filename && r.suggested_folder == folder).filter
              fun r => r.action == "accept").length := rfl
        omega
      have hrz : s.rejects = 0 := by
        have := List.length_filter_le
          (fun r => r.action == "choose")
          (ledger.filter fun r =>
            r.filename == filename && r.suggested_folder == folder)
        have hts : s.total = (ledger.filter fun r =>
            r.filename == filename && r.suggested_folder == folder).length := rfl
        have has : s.rejects = ((ledger.filter fun r =>
            r.filename == filename && r.suggested_folder == folder).filter
              fun r => r.action == "choose").length := rfl
        omega
      rw [base_case h0]
      unfold apply_learning_adjustment
      rw [hstats]
      simp only [haz, hrz]
      norm_num
      rw [min_eq_right hb1, max_eq_right hb0]
    · -- prior history: identical adjustment on both sides
      rw [key (Nat.pos_iff_ne_zero.mp hpos)]
      unfold apply_learning_adjustment
      rw [hstats]
      have htot1 : s.total + 1 ≠ 0 := Nat.succ_ne_zero _
      simp only [htot1, if_false, if_neg htot1]
      have hacc : (if s.accepts > 0 then min ((s.accepts : ℚ) * 0.10) 0.50 else 0)
          = min ((s.accepts : ℚ) * 0.10) 0.50 := by
        split_ifs with h
        · rfl
        · have h0 : s.accepts = 0 := Nat.eq_zero_of_not_pos h
          rw [h0]; norm_num
      have hrej : (if s.rejects > 0 then min ((s.rejects : ℚ) * 0.40) 0.50 else 0)
          = min ((s.rejects : ℚ) * 0.40) 0.50 := by
        split_ifs with h
        · rfl
        · have h0 : s.rejects = 0 := Nat.eq_zero_of_not_pos h
          rw [h0]; norm_num
      rw [hacc, hrej]
  · -- five accepts, no rejects
    intro ha hr
    have htot : s.total ≠ 0 := by
      have := List.length_filter_le
        (fun r => r.action == "accept")
        (ledger.filter fun r =>
          r.filename == filename && r.suggested_folder == folder)
      have hts : s.total = (ledger.filter fun r =>
          r.filename == filename && r.suggested_folder == folder).length := rfl
      have has : s.accepts = ((ledger.filter fun r =>
          r.filename == filename && r.suggested_folder == folder).filter
            fun r => r.action == "accept").length := rfl
      omega
    rw [key htot, ha, hr]
    norm_num

/-- Witness for C2: a ledger of five accepted suggestions of folder `Econ`
for `f.pdf`, with base 0.3, adjusts to exactly 0.3 + 0.50. -/
theorem learning_adjustment_spec_witness :
    apply_learning_adjustment
      (List.replicate 5 ⟨"f.pdf", "Econ", "accept"⟩) 0.3 "f.pdf" "Econ" =
      max 0 (min 1 (0.3 + 0.50)) :=
  (learning_adjustment_spec (List.replicate 5 ⟨"f.pdf", "Econ", "accept"⟩)
    0.3 "f.pdf" "Econ" (by norm_num) (by norm_num)).2.2.2
    (by decide) (by decide)

/-- Helper: multiplying by a fixed nonnegative type factor and clamping
at 1 preserves order. -/
theorem min_mul_clamp_mono (x y tf : ℚ) (hxy : x ≤ y) (htf : 0 ≤ tf) :
    min (x * tf) 1 ≤ min (y * tf) 1 :=
  min_le_min (mul_le_mul_of_nonneg_right hxy htf) le_rfl

/-- Helper: the obvious-match floor of step 3, as a function of the three
signal scores, is monotone whenever the raw blend is and the floor
condition only switches on. -/
theorem floor_step_mono (t t' f f' c c' : ℚ)
    (hblend : combined_step t f c ≤ combined_step t' f' c')
    (hcond : (f ≥ 0.9 ∧ t ≥ 0.5) → (f' ≥ 0.9 ∧ t' ≥ 0.5)) :
    (if f ≥ 0.9 ∧ t ≥ 0.5 then max (combined_step t f c) 0.75
      else combined_step t f c) ≤
    (if f' ≥ 0.9 ∧ t' ≥ 0.5 then max (combined_step t' f' c') 0.75
      else combined_step t' f' c') := by
  split_ifs with h1 h2
  · exact max_le_max hblend le_rfl
  · exact absurd (hcond h1) h2
  · exact hblend.trans (le_max_left _ _)
  · exact hblend

/-- Claim C7: with memory = 0 and the file-type weight fixed (and
nonnegative, as every weight in FILE_TYPE_PRIORS is), both the step-2
blend `0.4*token + 0.3*fuzzy + 0.3*content` and the final confidence are
monotonically non-decreasing in each of token, fuzzy and content
individually, the other two held fixed. -/
theorem compute_confidence_monotone (t t' f f' c c' w : ℚ) (hw : 0 ≤ w) :
    (t ≤ t' → combined_step t f c ≤ combined_step t' f c ∧
      compute_confidence 0 t f c w ≤ compute_confidence 0 t' f c w) ∧
    (f ≤ f' → combined_step t f c ≤ combined_step t f' c ∧
      compute_confidence 0 t f c w ≤ compute_confidence 0 t f' c w) ∧
    (c ≤ c' → combined_step t f c ≤ combined_step t f c' ∧
      compute_confidence 0 t f c w ≤ compute_confidence 0 t f c' w) := by
  have htf : (0 : ℚ) ≤ 0.7 + 0.3 * w := by linarith
  have hm : ¬ ((0 : ℚ) > 0) := lt_irrefl 0
  refine ⟨fun ht => ⟨?_, ?_⟩, fun hf => ⟨?_, ?_⟩, fun hc => ⟨?_, ?_⟩⟩
  · unfold combined_step; linarith
  · unfold compute_confidence
    rw [if_neg hm, if_neg hm]
    exact min_mul_clamp_mono _ _ _
      (floor_step_mono t t' f f c c
        (by unfold combined_step; linarith)
        (fun h => ⟨h.1, le_trans h.2 ht⟩)) htf
  · unfold combined_step; linarith
  · unfold compute_confidence
    rw [if_neg hm, if_neg hm]
    exact min_mul_clamp_mono _ _ _
      (floor_step_mono t t f f' c c
        (by unfold combined_step; linarith)
        (fun h => ⟨le_trans h.1 hf, h.2⟩)) htf
  · unfold combined_step; linarith
  · unfold compute_confidence
    rw [if_neg hm, if_neg hm]
    exact min_mul_clamp_mono _ _ _
      (floor_step_mono t t f f c c'
        (by unfold combined_step; linarith)
        (fun h => h)) htf

/-- Witness for C7: raising the token score from 0.2 to 0.6 (fuzzy 0.95,
content 0.1, weight 1) does not decrease the blend or the confidence. -/
theorem compute_confidence_monotone_witness :
    combined_step 0.2 0.95 0.1 ≤ combined_step 0.6 0.95 0.1 ∧
    compute_confidence 0 0.2 0.95 0.1 1 ≤ compute_confidence 0 0.6 0.95 0.1 1 :=
  (compute_confidence_monotone 0.2 0.6 0.95 0.95 0.1 0.1 1 (by norm_num)).1
    (by norm_num)

/-- Claim C5: with window 8 and arrivals at t = 0, 1, 2 the batch is not
ready at t = 9 but is ready at t = 10; draining returns the files in
arrival order and resets the coordinator, which then reports not-ready at
every later time until a new file arrives. -/
theorem batch_window_spec :
    batch_is_ready (add_file (add_file (add_file ⟨8, [], none⟩ "f1" 0) "f2" 1) "f3" 2) 9
      = false ∧
    batch_is_ready (add_file (add_file (add_file ⟨8, [], none⟩ "f1" 0) "f2" 1) "f3" 2) 10
      = true ∧
    (pop_batch (add_file (add_file (add_file ⟨8, [], none⟩ "f1" 0) "f2" 1) "f3" 2)).1
      = ["f1", "f2", "f3"] ∧
    (pop_batch (add_file (add_file (add_file ⟨8, [], none⟩ "f1" 0) "f2" 1) "f3" 2)).2.files
      = [] ∧
    (pop_batch (add_file (add_file (add_file ⟨8, [], none⟩ "f1" 0) "f2" 1) "f3" 2)).2.t_last
      = none ∧
    (∀ now : ℚ,
      batch_is_ready
        (pop_batch (add_file (add_file (add_file ⟨8, [], none⟩ "f1" 0) "f2" 1) "f3" 2)).2 now
        = false) ∧
    (∀ now arrival : ℚ, ∀ path : String, arrival ≠ 0 →
      batch_is_ready
        (add_file
          (pop_batch (add_file (add_file (add_file ⟨8, [], none⟩ "f1" 0) "f2" 1) "f3" 2)).2
          path arrival) now
        = decide (now - arrival ≥ 8)) := by
  refine ⟨?_, ?_, rfl, rfl, rfl, fun now => rfl, ?_⟩
  · norm_num [batch_is_ready, add_file]
  · norm_num [batch_is_ready, add_file]
  · intro now arrival path harr
    simp [batch_is_ready, add_file, pop_batch, harr]

/-- Witness for C5: the re-armed coordinator with one arrival at t = 1 is
ready again at t = 9. -/
theorem batch_window_spec_witness :
    batch_is_ready
      (add_file
        (pop_batch (add_file (add_file (add_file ⟨8, [], none⟩ "f1" 0) "f2" 1) "f3" 2)).2
        "g" 1) 9
      = decide ((9 : ℚ) - 1 ≥ 8) :=
  batch_window_spec.2.2.2.2.2.2 9 1 "g" (by norm_num)

/-- Helper: a queued entry whose wait has not yet elapsed is left
untouched by a retry pass. -/
theorem process_locked_once_skip (mr : ℕ) (q : RetryQueue) (p : String)
    (now : ℚ) (e : RetryEntry) (hq : q p = some e)
    (h : ¬ now - e.last_retry ≥ wait_time e.attempts) :
    process_locked_once mr q p now = q := by
  unfold process_locked_once
  rw [hq]
  have hb : entry_ready now e = false := by
    unfold entry_ready; exact decide_eq_false h
  simp [hb]

/-- Helper: a ready entry that fails with a lock again, without exhausting
`max_retries`, stays queued with one more attempt and a fresh stamp. -/
theorem process_locked_once_retry (mr : ℕ) (q : RetryQueue) (p : String)
    (now : ℚ) (e : RetryEntry) (hq : q p = some e)
    (h : now - e.last_retry ≥ wait_time e.attempts) (hlt : e.attempts + 1 < mr) :
    (process_locked_once mr q p now) p
      = some ⟨e.folder, e.attempts + 1, now, e.user_choice⟩ := by
  unfold process_locked_once
  rw [hq]
  have hb : entry_ready now e = true := by
    unfold entry_ready; exact decide_eq_true h
  have hmark : (mark_retry q p now) p
      = some ⟨e.folder, e.attempts + 1, now, e.user_choice⟩ := by
    unfold mark_retry; simp [hq]
  have hgu : should_give_up (mark_retry q p now) p mr = false := by
    unfold should_give_up
    rw [hmark]
    simp only [decide_eq_false_iff_not, not_le]
    exact hlt
  simp only [hb, if_true, hgu, if_false, Bool.false_eq_true]
  exact hmark

/-- Helper: a ready entry that fails with a lock again and thereby reaches
`max_retries` attempts is dropped from the queue. -/
theorem process_locked_once_drop (mr : ℕ) (q : RetryQueue) (p : String)
    (now : ℚ) (e : RetryEntry) (hq : q p = some e)
    (h : now - e.last_retry ≥ wait_time e.attempts) (hge : mr ≤ e.attempts + 1) :
    (process_locked_once mr q p now) p = none := by
  unfold process_locked_once
  rw [hq]
  have hb : entry_ready now e = true := by
    unfold entry_ready; exact decide_eq_true h
  have hmark : (mark_retry q p now) p
      = some ⟨e.folder, e.attempts + 1, now, e.user_choice⟩ := by
    unfold mark_retry; simp [hq]
  have hgu : should_give_up (mark_retry q p now) p mr = true := by
    unfold should_give_up
    rw [hmark]
    simpa using hge
  simp only [hb, if_true, hgu]
  unfold queue_remove
  simp

/-- Claim C4: the backoff wait is `min(5 * 2^attempts, 60)` — the capped
sequence 5, 10, 20, 40, 60, 60 — an entry is only processed once that
wait has elapsed since `last_retry`, and a file whose move fails with a
lock on every attempt (enqueued by the initial failure at t = 0, retried
at the earliest ready instants 5, 15, 35, 75, 135) is dropped exactly at
the 6th failed attempt (the 5th failed retry, maxRetries = 5) and never
retried afterwards. -/
theorem retry_backoff_spec :
    (wait_time 0 = 5 ∧ wait_time 1 = 10 ∧ wait_time 2 = 20 ∧
      wait_time 3 = 40 ∧ wait_time 4 = 60 ∧ wait_time 5 = 60) ∧
    (∀ (now : ℚ) (e : RetryEntry),
      entry_ready now e = true ↔ e.last_retry + wait_time e.attempts ≤ now) ∧
    retry_q0 "f" = some ⟨"d", 0, 0, none⟩ ∧
    process_locked_once 5 retry_q0 "f" 4 = retry_q0 ∧
    retry_q1 "f" = some ⟨"d", 1, 5, none⟩ ∧
    process_locked_once 5 retry_q1 "f" 14 = retry_q1 ∧
    retry_q2 "f" = some ⟨"d", 2, 15, none⟩ ∧
    process_locked_once 5 retry_q2 "f" 34 = retry_q2 ∧
    retry_q3 "f" = some ⟨"d", 3, 35, none⟩ ∧
    process_locked_once 5 retry_q3 "f" 74 = retry_q3 ∧
    retry_q4 "f" = some ⟨"d", 4, 75, none⟩ ∧
    process_locked_once 5 retry_q4 "f" 134 = retry_q4 ∧
    retry_q5 "f" = none ∧
    (∀ now : ℚ, process_locked_once 5 retry_q5 "f" now = retry_q5) := by
  have h0 : retry_q0 "f" = some ⟨"d", 0, 0, none⟩ := by
    unfold retry_q0 queue_add; simp
  have h1 : retry_q1 "f" = some ⟨"d", 1, 5, none⟩ :=
    process_locked_once_retry 5 retry_q0 "f" 5 _ h0
      (by norm_num [wait_time]) (by norm_num)
  have h2 : retry_q2 "f" = some ⟨"d", 2, 15, none⟩ :=
    process_locked_once_retry 5 retry_q1 "f" 15 _ h1
      (by norm_num [wait_time]) (by norm_num)
  have h3 : retry_q3 "f" = some ⟨"d", 3, 35, none⟩ :=
    process_locked_once_retry 5 retry_q2 "f" 35 _ h2
      (by norm_num [wait_time]) (by norm_num)
  have h4 : retry_q4 "f" = some ⟨"d", 4, 75, none⟩ :=
    process_locked_once_retry 5 retry_q3 "f" 75 _ h3
      (by norm_num [wait_time]) (by norm_num)
  have h5 : retry_q5 "f" = none :=
    process_locked_once_drop 5 retry_q4 "f" 135 _ h4
      (by norm_num [wait_time]) (by norm_num)
  refine ⟨⟨by norm_num [wait_time], by norm_num [wait_time], by norm_num [wait_time],
      by norm_num [wait_time], by norm_num [wait_time], by norm_num [wait_time]⟩,
    ?_, h0, ?_, h1, ?_, h2, ?_, h3, ?_, h4, ?_, h5, ?_⟩
  · intro now e
    unfold entry_ready
    rw [decide_eq_true_iff]
    constructor <;> intro h <;> linarith
  · exact process_locked_once_skip 5 retry_q0 "f" 4 _ h0 (by norm_num [wait_time])
  · exact process_locked_once_skip 5 retry_q1 "f" 14 _ h1 (by norm_num [wait_time])
  · exact process_locked_once_skip 5 retry_q2 "f" 34 _ h2 (by norm_num [wait_time])
  · exact process_locked_once_skip 5 retry_q3 "f" 74 _ h3 (by norm_num [wait_time])
  · exact process_locked_once_skip 5 retry_q4 "f" 134 _ h4 (by norm_num [wait_time])
  · intro now
    unfold process_locked_once
    rw [h5]

/-- Claim C10: `LockedFileQueue.add` on an already-queued path replaces
the entry wholesale — attempts reset to 0, `last_retry` set to now, folder
and stored user choice overwritten, other paths untouched — so the
backoff of the fresh entry restarts at `wait_time 0 = 5` seconds. -/
theorem retry_add_overwrites (q : RetryQueue) (p folder : String) (now : ℚ)
    (choice : Option UserChoice) :
    (queue_add q p folder now choice) p = some ⟨folder, 0, now, choice⟩ ∧
    (∀ p', p' ≠ p → (queue_add q p folder now choice) p' = q p') ∧
    wait_time 0 = 5 := by
  refine ⟨by unfold queue_add; simp, fun p' hp => ?_, by norm_num [wait_time]⟩
  unfold queue_add
  simp [hp]

/-- Witness for C10: re-adding path `f` (previously queued for folder
`old` with 3 attempts) replaces the entry with attempts 0 and the new
folder and time, leaving path `g` untouched. -/
theorem retry_add_overwrites_witness :
    (queue_add (fun p => if p = "f" then some ⟨"old", 3, 11, none⟩ else none)
      "f" "d" 200 none) "f" = some ⟨"d", 0, 200, none⟩ ∧
    (queue_add (fun p => if p = "f" then some ⟨"old", 3, 11, none⟩ else none)
      "f" "d" 200 none) "g" = none :=
  ⟨(retry_add_overwrites (fun p => if p = "f" then some ⟨"old", 3, 11, none⟩ else none)
      "f" "d" 200 none).1,
    by
      rw [(retry_add_overwrites (fun p => if p = "f" then some ⟨"old", 3, 11, none⟩ else none)
        "f" "d" 200 none).2.1 "g" (by decide)]
      simp⟩

/-- Claim C8: when the exact filename has a row in the decision store,
`match` returns that remembered folder with confidence 1.0, method
`memory` and zeroed token/fuzzy/content scores, and the result is
independent of the classifier, the scorer signals, the content snippet,
the candidate scan and the learning ledger. -/
theorem match_memory_short_circuit (decisions : List (String × String))
    (filename folder : String)
    (h : lookup_decision decisions filename = some folder)
    (cl cl' : Option (String × ℚ × String)) (ledger ledger' : List LearningRec)
    (tokenS tokenS' fuzzyS fuzzyS' : String → String → ℚ)
    (snip snip' : Option String) (cands cands' : List (String × String))
    (ext ext' : String) :
    match_file decisions cl ledger tokenS fuzzyS snip cands filename ext =
      { folder := some folder, confidence := 1, memory_score := 1
        token_score := 0, fuzzy_score := 0, content_score := 0
        file_type_weight := 1, method := "memory", reasoning := none } ∧
    match_file decisions cl ledger tokenS fuzzyS snip cands filename ext =
      match_file decisions cl' ledger' tokenS' fuzzyS' snip' cands' filename ext' := by
  unfold match_file
  rw [h]
  exact ⟨rfl, rfl⟩

/-- Witness for C8: a decision store remembering `a.pdf → D`, probed with
two entirely different classifiers, scorers, snippets and candidates. -/
theorem match_memory_short_circuit_witness :
    match_file [("a.pdf", "D")] none [] (fun _ _ => 0) (fun _ _ => 0)
        none [] "a.pdf" ".pdf" =
      { folder := some "D", confidence := 1, memory_score := 1
        token_score := 0, fuzzy_score := 0, content_score := 0
        file_type_weight := 1, method := "memory", reasoning := none } ∧
    match_file [("a.pdf", "D")] none [] (fun _ _ => 0) (fun _ _ => 0)
        none [] "a.pdf" ".pdf" =
      match_file [("a.pdf", "D")] (some ("E", 0.9, "because")) [⟨"a.pdf", "E", "accept"⟩]
        (fun _ _ => 1) (fun _ _ => 1) (some "snippet") [("E", "E")] "a.pdf" ".zip" :=
  match_memory_short_circuit [("a.pdf", "D")] "a.pdf" "D" (by decide)
    none (some ("E", 0.9, "because")) [] [⟨"a.pdf", "E", "accept"⟩]
    (fun _ _ => 0) (fun _ _ => 1) (fun _ _ => 0) (fun _ _ => 1)
    none (some "snippet") [] [("E", "E")] ".pdf" ".zip"

/-- Claim C9 (divergence witness): moving `downloads/report.pdf` onto
`docs/` where `docs/report.pdf` already holds byte-identical content is
NOT treated as a duplicate skip: `move_file` reports success, leaves the
identical `docs/report.pdf` in place, and installs a second copy of the
same content as `docs/report_1.pdf` — and its `Bool` result carries no
`duplicate`/`locked` error channel at all, though its callers in main.py
unpack `(success, error)` and treat `error == 'duplicate'` as a skip. -/
theorem move_file_duplicate_behavior :
    (move_file
        (fun p => if p = ⟨"downloads", "report", ".pdf"⟩ then some "X"
          else if p = ⟨"docs", "report", ".pdf"⟩ then some "X" else none)
        ⟨"downloads", "report", ".pdf"⟩ ⟨"docs", "report", ".pdf"⟩ 100).1
      = true ∧
    (move_file
        (fun p => if p = ⟨"downloads", "report", ".pdf"⟩ then some "X"
          else if p = ⟨"docs", "report", ".pdf"⟩ then some "X" else none)
        ⟨"downloads", "report", ".pdf"⟩ ⟨"docs", "report", ".pdf"⟩ 100).2
        ⟨"docs", "report", ".pdf"⟩ = some "X" ∧
    (move_file
        (fun p => if p = ⟨"downloads", "report", ".pdf"⟩ then some "X"
          else if p = ⟨"docs", "report", ".pdf"⟩ then some "X" else none)
        ⟨"downloads", "report", ".pdf"⟩ ⟨"docs", "report", ".pdf"⟩ 100).2
        ⟨"docs", "report_1", ".pdf"⟩ = some "X" ∧
    (move_file
        (fun p => if p = ⟨"downloads", "report", ".pdf"⟩ then some "X"
          else if p = ⟨"docs", "report", ".pdf"⟩ then some "X" else none)
        ⟨"downloads", "report", ".pdf"⟩ ⟨"docs", "report", ".pdf"⟩ 100).2
        ⟨"downloads", "report", ".pdf"⟩ = none := by
  refine ⟨?_, ?_, ?_, ?_⟩ <;> decide

/-- Helper: the newest entry survives the undo-history trim. -/
theorem trim_undo_getLast (l : List UndoRow) (a : UndoRow) :
    (trim_undo (l ++ [a])).getLast? = some a := by
  unfold trim_undo
  have hk : (l ++ [a]).length - 10 ≤ l.length := by
    simp only [List.length_append, List.length_singleton]
    omega
  rw [List.drop_append_of_le_length hk]
  exact List.getLast?_concat _

/-- Helper: a filename filtered out of the decision rows is no longer
remembered. -/
theorem lookup_decision_filter_out (l : List (String × String)) (name : String) :
    lookup_decision (l.filter fun r => !(r.1 == name)) name = none := by
  unfold lookup_decision
  have : (l.filter fun r => !(r.1 == name)).find? (fun r => r.1 == name) = none := by
    rw [List.find?_eq_none]
    intro x hx
    have hmem := List.mem_filter.mp hx
    simpa using hmem.2
  rw [this]
  rfl

/-- Claim C6: after a successful recorded move of the file at `src` into
folder `folder` (destination slot free), undo succeeds, restores the
filesystem exactly (the file is back at `src`, the destination slot
empty, everything else untouched), leaves no Decision row for the
filename, and appends a `choose` learning record against `folder` — the
folder the file had been moved to — after the move's own `accept` row. -/
theorem move_undo_round_trip (s : AppState) (src : FPath)
    (folder content : String)
    (hsrc : s.fs src = some content)
    (hdst : s.fs ⟨folder, src.base⟩ = none) :
    ∃ s', undo_move (recorded_move s src folder) = some s' ∧
      (∀ p, s'.fs p = s.fs p) ∧
      s'.fs src = some content ∧
      s'.fs ⟨folder, src.base⟩ = none ∧
      lookup_decision s'.decisions src.base = none ∧
      s'.learning = s.learning ++
        [⟨src.base, folder, "accept"⟩, ⟨src.base, folder, "choose"⟩] := by
  have hne : src ≠ ⟨folder, src.base⟩ := by
    intro h
    rw [← h, hsrc] at hdst
    cases hdst
  have hlast : (recorded_move s src folder).undo_history.getLast? =
      some ⟨s.next_id, src.base, src, ⟨folder, src.base⟩⟩ := by
    unfold recorded_move
    exact trim_undo_getLast _ _
  have hm_dst : (recorded_move s src folder).fs ⟨folder, src.base⟩
      = some content := by
    unfold recorded_move fs_move
    simp [hsrc]
  have hm_src : (recorded_move s src folder).fs src = none := by
    unfold recorded_move fs_move
    simp [hne]
  refine ⟨{ fs := fs_move (recorded_move s src folder).fs ⟨folder, src.base⟩ src
            decisions := (recorded_move s src folder).decisions.filter
              fun r => !(r.1 == src.base)
            undo_history := (recorded_move s src folder).undo_history.filter
              fun r => !(r.id == s.next_id)
            learning := (recorded_move s src folder).learning ++
              [⟨src.base, folder, "choose"⟩]
            next_id := (recorded_move s src folder).next_id },
    ?_, ?_, ?_, ?_, ?_, ?_⟩
  · unfold undo_move
    rw [hlast]
    dsimp only
    rw [hm_dst, hm_src]
    simp
  · intro p
    dsimp only
    unfold fs_move
    by_cases hp1 : p = src
    · subst hp1
      rw [if_pos rfl, hm_dst, hsrc]
    · rw [if_neg hp1]
      by_cases hp2 : p = (⟨folder, src.base⟩ : FPath)
      · subst hp2
        rw [if_pos rfl, hdst]
      · rw [if_neg hp2]
        unfold recorded_move fs_move
        simp [hp1, hp2]
  · dsimp only
    unfold fs_move
    rw [if_pos rfl, hm_dst]
  · dsimp only
    unfold fs_move
    rw [if_neg (fun h => hne h.symm), if_pos rfl]
  · dsimp only
    exact lookup_decision_filter_out _ _
  · dsimp only
    unfold recorded_move
    dsimp only
    rw [List.append_assoc]
    rfl

/-- Witness for C6: a one-file filesystem, `downloads/a.pdf` moved into
folder `Econ` and then undone. -/
theorem move_undo_round_trip_witness :
    ∃ s', undo_move (recorded_move
        ⟨fun p => if p = ⟨"downloads", "a.pdf"⟩ then some "X" else none,
          [], [], [], 0⟩
        ⟨"downloads", "a.pdf"⟩ "Econ") = some s' ∧
      (∀ p, s'.fs p =
        (if p = (⟨"downloads", "a.pdf"⟩ : FPath) then some "X" else none)) ∧
      s'.fs ⟨"downloads", "a.pdf"⟩ = some "X" ∧
      s'.fs ⟨"Econ", "a.pdf"⟩ = none ∧
      lookup_decision s'.decisions "a.pdf" = none ∧
      s'.learning = [⟨"a.pdf", "Econ", "accept"⟩, ⟨"a.pdf", "Econ", "choose"⟩] :=
  move_undo_round_trip
    ⟨fun p => if p = ⟨"downloads", "a.pdf"⟩ then some "X" else none,
      [], [], [], 0⟩
    ⟨"downloads", "a.pdf"⟩ "Econ" "X" (by decide) (by decide)
